import Mathlib

/-!
Shallow embedding of `src/frontend/pyjukebox/src/main.ts` from the JukeBox
repository: the Vue application bootstrap module.  The module body is
modelled statement by statement as a list of statements of a small module
language, interpreted against an abstract external framework whose calls
may fail.  The interpreter records the observable effects (imports
evaluated, configuration assignments, instance construction, mounting),
the framework's global configuration, and the module's own bindings and
exports.
-/

namespace PyJukebox

/-- Errors thrown by external framework calls. -/
abbrev JsError := String

/-- Components visible to this module: the root component `App`, imported
from `./App.vue`. -/
inductive Component where
  | App
deriving DecidableEq

/-- Virtual DOM nodes returned by the create-element function that the
framework passes to a render option. -/
inductive VNode where
  | ofComponent (c : Component)
deriving DecidableEq

/-- The boolean flags of the framework's global configuration object
(`Vue.config`). -/
structure VueConfig where
  silent : Bool
  productionTip : Bool
  devtools : Bool
  performance : Bool
deriving DecidableEq

/-- A field of the global configuration. -/
inductive ConfigField where
  | silent
  | productionTip
  | devtools
  | performance
deriving DecidableEq

/-- Assignment to one field of the global configuration. -/
def setField (cfg : VueConfig) : ConfigField → Bool → VueConfig
  | .silent, b => { cfg with silent := b }
  | .productionTip, b => { cfg with productionTip := b }
  | .devtools, b => { cfg with devtools := b }
  | .performance, b => { cfg with performance := b }

/-- The render option of main.ts, `render: x => x(App)`, stated for an
arbitrary result type so that instrumented create-element functions can
be passed to it as well as the framework's own. -/
def render {V : Type} (x : Component → V) : V :=
  x Component.App

/-- The options object passed to the Vue constructor: the `router` field
refers to a module binding by name (the shorthand `router,` of the
source), and the render option maps a create-element function to a
virtual node. -/
structure VueOptions where
  router : String
  render : (Component → VNode) → VNode

/-- The options object of main.ts: `{ router, render: x => x(App) }`. -/
def mainOptions : VueOptions :=
  { router := "router", render := render }

/-- Values bound by module-level bindings: imported modules, or a
constructed application instance. -/
inductive Value where
  | imported (path : String)
  | appInst
deriving DecidableEq

/-- Observable effects of executing the module. -/
inductive Effect where
  | effImport (path : String)
  | effSetConfig (field : ConfigField) (value : Bool)
  | effConstruct (routerValue : Option Value) (rendered : VNode)
  | effMount (args : List String)
deriving DecidableEq

/-- The statements of the embedded module language: the constructs main.ts
uses, plus the export form, which main.ts does not use. -/
inductive Stmt where
  | importDefault (binder : String) (path : String)
  | importSideEffect (path : String)
  | assignConfig (field : ConfigField) (value : Bool)
  | newVueMount (options : VueOptions) (args : List String)
  | exportValue (name : String) (v : Value)

/-- The bootstrap module main.ts, statement by statement: the default
imports of `Vue` from `vue`, `App` from `./App.vue` and `router` from
`./router`, the side-effect-only `./registerServiceWorker` one, then
`Vue.config.productionTip = false`, then
`new Vue({ router, render: x => x(App) }).$mount('#app')`. -/
def mainModule : List Stmt :=
  [ .importDefault "Vue" "vue",
    .importDefault "App" "./App.vue",
    .importSideEffect "./registerServiceWorker",
    .importDefault "router" "./router",
    .assignConfig .productionTip false,
    .newVueMount mainOptions ["#app"] ]

/-- The external framework: evaluating an imported module, constructing an
application instance, and mounting one; each call can throw. -/
structure Framework (I : Type) where
  evalImport : String → Except JsError Unit
  construct : VueOptions → Except JsError I
  mount : I → List String → Except JsError I

/-- Module-level state: the framework's global configuration, the module's
own bindings and exports, and the trace of effects so far. -/
structure ModState where
  config : VueConfig
  bindings : List (String × Value)
  exports : List (String × Value)
  trace : List Effect
deriving DecidableEq

/-- Look a binding up by name. -/
def lookupBinding (bs : List (String × Value)) (n : String) : Option Value :=
  (bs.find? (fun b => b.1 == n)).map (fun b => b.2)

/-- Execute one statement.  A framework error aborts the statement and is
returned unchanged; the statement language has no construct that could
catch or transform it. -/
def execStmt {I : Type} (fw : Framework I) (st : Stmt) (s : ModState) :
    ModState × Except JsError Unit :=
  match st with
  | .importDefault binder path =>
    match fw.evalImport path with
    | .error e => (s, .error e)
    | .ok _ =>
      ({ s with trace := s.trace ++ [.effImport path],
                bindings := s.bindings ++ [(binder, .imported path)] }, .ok ())
  | .importSideEffect path =>
    match fw.evalImport path with
    | .error e => (s, .error e)
    | .ok _ => ({ s with trace := s.trace ++ [.effImport path] }, .ok ())
  | .assignConfig f v =>
    ({ s with config := setField s.config f v,
              trace := s.trace ++ [.effSetConfig f v] }, .ok ())
  | .newVueMount o args =>
    match fw.construct o with
    | .error e => (s, .error e)
    | .ok inst =>
      let s1 := { s with trace := s.trace ++
        [.effConstruct (lookupBinding s.bindings o.router) (o.render VNode.ofComponent)] }
      match fw.mount inst args with
      | .error e => (s1, .error e)
      | .ok _ => ({ s1 with trace := s1.trace ++ [.effMount args] }, .ok ())
  | .exportValue n v =>
    ({ s with exports := s.exports ++ [(n, v)] }, .ok ())

/-- Execute a list of statements in order; the first error stops execution
and propagates. -/
def execStmts {I : Type} (fw : Framework I) :
    List Stmt → ModState → ModState × Except JsError Unit
  | [], s => (s, .ok ())
  | st :: rest, s =>
    match execStmt fw st s with
    | (s1, .ok _) => execStmts fw rest s1
    | (s1, .error e) => (s1, .error e)

/-- The initial module state over a given global configuration. -/
def initState (cfg : VueConfig) : ModState :=
  { config := cfg, bindings := [], exports := [], trace := [] }

/-- Run the whole bootstrap module over a given framework and initial
global configuration. -/
def runMain {I : Type} (fw : Framework I) (cfg : VueConfig) :
    ModState × Except JsError Unit :=
  execStmts fw mainModule (initState cfg)

/-- All framework calls succeed. -/
def Succeeds {I : Type} (fw : Framework I) : Prop :=
  (∀ p, fw.evalImport p = .ok ()) ∧
  (∀ o, ∃ i, fw.construct o = .ok i) ∧
  (∀ i args, ∃ j, fw.mount i args = .ok j)

/-- A concrete framework on which every call succeeds. -/
def okFramework : Framework Unit :=
  { evalImport := fun _ => .ok (),
    construct := fun _ => .ok (),
    mount := fun _ _ => .ok () }

/-- A concrete framework whose mount call fails (e.g. a missing mount
target), every other call succeeding. -/
def mountFailFw : Framework Unit :=
  { evalImport := fun _ => .ok (),
    construct := fun _ => .ok (),
    mount := fun _ _ => .error "no mount target" }

/-- A concrete global configuration (Vue 2 defaults). -/
def cfg0 : VueConfig :=
  { silent := false, productionTip := true, devtools := true, performance := false }

/-- The effect trace of a fully successful run of the module. -/
def mainTrace : List Effect :=
  [ .effImport "vue",
    .effImport "./App.vue",
    .effImport "./registerServiceWorker",
    .effImport "./router",
    .effSetConfig .productionTip false,
    .effConstruct (some (.imported "./router")) (.ofComponent .App),
    .effMount ["#app"] ]

/-- The module bindings after all four import statements. -/
def mainBindings : List (String × Value) :=
  [("Vue", .imported "vue"), ("App", .imported "./App.vue"),
   ("router", .imported "./router")]

/-- How many bindings exist after the first `k` effects of a successful
run (the side-effect import at position 2 binds nothing). -/
def bindCount (k : Nat) : Nat :=
  min 3 (if k ≤ 2 then k else k - 1)

/-- The module state after the first `k` effects of a run: the reachable
states of the module, whichever framework calls fail. -/
def stateAt (cfg : VueConfig) (k : Nat) : ModState :=
  { config := if 5 ≤ k then setField cfg ConfigField.productionTip false else cfg,
    bindings := mainBindings.take (bindCount k),
    exports := [],
    trace := mainTrace.take k }

/-- The text of main.ts, line by line, exactly as it appears in the
repository (the file ends without a trailing newline). -/
def mainTsLines : List String :=
  [ "\x69mport Vue from \x27vue\x27",
    "\x69mport App from \x27./App.vue\x27",
    "\x69mport \x27./registerServiceWorker\x27",
    "\x69mport router from \x27./router\x27",
    "",
    "Vue.config.productionTip = false",
    "",
    "new Vue(\x7b",
    "  router,",
    "  render: x => x(App)",
    "\x7d).$mount(\x27#app\x27)" ]

/-- The full text of main.ts. -/
def mainTsSource : String :=
  String.intercalate "\n" mainTsLines

/-- Discriminator for import effects. -/
def isImportEff : Effect → Bool
  | .effImport _ => true
  | _ => false

/-- Discriminator for configuration-assignment effects. -/
def isSetConfigEff : Effect → Bool
  | .effSetConfig _ _ => true
  | _ => false

/-- Discriminator for instance-construction effects. -/
def isConstructEff : Effect → Bool
  | .effConstruct _ _ => true
  | _ => false

/-- Discriminator for mount effects. -/
def isMountEff : Effect → Bool
  | .effMount _ => true
  | _ => false

theorem run_err_vue {I : Type} (fw : Framework I) (cfg : VueConfig) (e : JsError)
    (h1 : fw.evalImport "vue" = .error e) :
    runMain fw cfg = (stateAt cfg 0, .error e) := by
  simp only [runMain, mainModule, execStmts, execStmt, h1]
  rfl

theorem run_err_app {I : Type} (fw : Framework I) (cfg : VueConfig) (e : JsError)
    (h1 : fw.evalImport "vue" = .ok ())
    (h2 : fw.evalImport "./App.vue" = .error e) :
    runMain fw cfg = (stateAt cfg 1, .error e) := by
  simp only [runMain, mainModule, execStmts, execStmt, h1, h2]
  rfl

theorem run_err_sw {I : Type} (fw : Framework I) (cfg : VueConfig) (e : JsError)
    (h1 : fw.evalImport "vue" = .ok ())
    (h2 : fw.evalImport "./App.vue" = .ok ())
    (h3 : fw.evalImport "./registerServiceWorker" = .error e) :
    runMain fw cfg = (stateAt cfg 2, .error e) := by
  simp only [runMain, mainModule, execStmts, execStmt, h1, h2, h3]
  rfl

theorem run_err_router {I : Type} (fw : Framework I) (cfg : VueConfig) (e : JsError)
    (h1 : fw.evalImport "vue" = .ok ())
    (h2 : fw.evalImport "./App.vue" = .ok ())
    (h3 : fw.evalImport "./registerServiceWorker" = .ok ())
    (h4 : fw.evalImport "./router" = .error e) :
    runMain fw cfg = (stateAt cfg 3, .error e) := by
  simp only [runMain, mainModule, execStmts, execStmt, h1, h2, h3, h4]
  rfl

theorem run_err_construct {I : Type} (fw : Framework I) (cfg : VueConfig) (e : JsError)
    (h1 : fw.evalImport "vue" = .ok ())
    (h2 : fw.evalImport "./App.vue" = .ok ())
    (h3 : fw.evalImport "./registerServiceWorker" = .ok ())
    (h4 : fw.evalImport "./router" = .ok ())
    (h5 : fw.construct mainOptions = .error e) :
    runMain fw cfg = (stateAt cfg 5, .error e) := by
  simp only [runMain, mainModule, execStmts, execStmt, h1, h2, h3, h4, h5]
  rfl

theorem run_err_mount {I : Type} (fw : Framework I) (cfg : VueConfig) (e : JsError)
    (inst : I)
    (h1 : fw.evalImport "vue" = .ok ())
    (h2 : fw.evalImport "./App.vue" = .ok ())
    (h3 : fw.evalImport "./registerServiceWorker" = .ok ())
    (h4 : fw.evalImport "./router" = .ok ())
    (h5 : fw.construct mainOptions = .ok inst)
    (h6 : fw.mount inst ["#app"] = .error e) :
    runMain fw cfg = (stateAt cfg 6, .error e) := by
  simp only [runMain, mainModule, execStmts, execStmt, h1, h2, h3, h4, h5, h6]
  rfl

theorem run_ok {I : Type} (fw : Framework I) (cfg : VueConfig) (inst j : I)
    (h1 : fw.evalImport "vue" = .ok ())
    (h2 : fw.evalImport "./App.vue" = .ok ())
    (h3 : fw.evalImport "./registerServiceWorker" = .ok ())
    (h4 : fw.evalImport "./router" = .ok ())
    (h5 : fw.construct mainOptions = .ok inst)
    (h6 : fw.mount inst ["#app"] = .ok j) :
    runMain fw cfg = (stateAt cfg 7, .ok ()) := by
  simp only [runMain, mainModule, execStmts, execStmt, h1, h2, h3, h4, h5, h6]
  rfl

theorem runMain_cases {I : Type} (fw : Framework I) (cfg : VueConfig) :
    ∃ k, k ≤ 7 ∧ (runMain fw cfg).1 = stateAt cfg k ∧
      ((runMain fw cfg).2 = Except.ok () → k = 7) := by
  cases h1 : fw.evalImport "vue" with
  | error e =>
    refine ⟨0, by omega, ?_, ?_⟩ <;> simp [run_err_vue fw cfg e h1]
  | ok u =>
    cases u
    cases h2 : fw.evalImport "./App.vue" with
    | error e =>
      refine ⟨1, by omega, ?_, ?_⟩ <;> simp [run_err_app fw cfg e h1 h2]
    | ok u =>
      cases u
      cases h3 : fw.evalImport "./registerServiceWorker" with
      | error e =>
        refine ⟨2, by omega, ?_, ?_⟩ <;> simp [run_err_sw fw cfg e h1 h2 h3]
      | ok u =>
        cases u
        cases h4 : fw.evalImport "./router" with
        | error e =>
          refine ⟨3, by omega, ?_, ?_⟩ <;> simp [run_err_router fw cfg e h1 h2 h3 h4]
        | ok u =>
          cases u
          cases h5 : fw.construct mainOptions with
          | error e =>
            refine ⟨5, by omega, ?_, ?_⟩ <;>
              simp [run_err_construct fw cfg e h1 h2 h3 h4 h5]
          | ok inst =>
            cases h6 : fw.mount inst ["#app"] with
            | error e =>
              refine ⟨6, by omega, ?_, ?_⟩ <;>
                simp [run_err_mount fw cfg e inst h1 h2 h3 h4 h5 h6]
            | ok j =>
              refine ⟨7, by omega, ?_, ?_⟩ <;>
                simp [run_ok fw cfg inst j h1 h2 h3 h4 h5 h6]

theorem run_of_succeeds {I : Type} (fw : Framework I) (cfg : VueConfig)
    (h : Succeeds fw) : runMain fw cfg = (stateAt cfg 7, .ok ()) := by
  obtain ⟨himp, hc, hm⟩ := h
  obtain ⟨inst, h5⟩ := hc mainOptions
  obtain ⟨j, h6⟩ := hm inst ["#app"]
  exact run_ok fw cfg inst j (himp _) (himp _) (himp _) (himp _) h5 h6

theorem succeeds_okFramework : Succeeds okFramework :=
  ⟨fun _ => rfl, fun _ => ⟨(), rfl⟩, fun _ _ => ⟨(), rfl⟩⟩

theorem stateAt_config (cfg : VueConfig) (k : Nat) :
    (stateAt cfg k).config =
      if 5 ≤ k then setField cfg ConfigField.productionTip false else cfg := rfl

theorem stateAt_trace (cfg : VueConfig) (k : Nat) :
    (stateAt cfg k).trace = mainTrace.take k := rfl

theorem stateAt_bindings (cfg : VueConfig) (k : Nat) :
    (stateAt cfg k).bindings = mainBindings.take (bindCount k) := rfl

theorem stateAt_exports (cfg : VueConfig) (k : Nat) :
    (stateAt cfg k).exports = [] := rfl

theorem mainTrace_rank (i : Nat) (ei : Effect) (hi : mainTrace[i]? = some ei) :
    (isImportEff ei → i ≤ 3) ∧ (isSetConfigEff ei → i = 4) ∧
    (isConstructEff ei → i = 5) ∧ (isMountEff ei → i = 6) := by
  have hi7 : i < 7 := (List.getElem?_eq_some.mp hi).1
  interval_cases i <;> simp [mainTrace] at hi <;> subst hi <;>
    simp [isImportEff, isSetConfigEff, isConstructEff, isMountEff]

theorem mainTrace_late (j : Nat) (e : Effect) (hj : mainTrace[j]? = some e)
    (he : isSetConfigEff e ∨ isConstructEff e ∨ isMountEff e) : 4 ≤ j := by
  obtain ⟨r1, r2, r3, r4⟩ := mainTrace_rank j e hj
  rcases he with h | h | h
  · have := r2 h
    omega
  · have := r3 h
    omega
  · have := r4 h
    omega

theorem mainTrace_order (i j : Nat) (ei ej : Effect)
    (hi : mainTrace[i]? = some ei) (hj : mainTrace[j]? = some ej) :
    (isImportEff ei → isSetConfigEff ej → i < j) ∧
    (isImportEff ei → isConstructEff ej → i < j) ∧
    (isImportEff ei → isMountEff ej → i < j) ∧
    (isSetConfigEff ei → isConstructEff ej → i < j) ∧
    (isSetConfigEff ei → isMountEff ej → i < j) ∧
    (isConstructEff ei → isMountEff ej → i < j) := by
  obtain ⟨ri1, ri2, ri3, ri4⟩ := mainTrace_rank i ei hi
  obtain ⟨rj1, rj2, rj3, rj4⟩ := mainTrace_rank j ej hj
  refine ⟨fun a b => ?_, fun a b => ?_, fun a b => ?_,
    fun a b => ?_, fun a b => ?_, fun a b => ?_⟩
  · have hx := ri1 a
    have hy := rj2 b
    omega
  · have hx := ri1 a
    have hy := rj3 b
    omega
  · have hx := ri1 a
    have hy := rj4 b
    omega
  · have hx := ri2 a
    have hy := rj3 b
    omega
  · have hx := ri2 a
    have hy := rj4 b
    omega
  · have hx := ri3 a
    have hy := rj4 b
    omega

/-- C1: executing the bootstrap module performs exactly these effects, and
no others: the four imports are evaluated (among them the side-effect
one of `./registerServiceWorker`, which triggers service-worker
registration), the production diagnostics flag `Vue.config.productionTip`
is set to `false`, a root application instance is constructed with the
imported router passed into its options, and the instance's view tree is
mounted on the DOM anchor `#app`. -/
theorem mainBootstrapEffects {I : Type} (fw : Framework I) (cfg : VueConfig)
    (h : Succeeds fw) :
    (runMain fw cfg).1.trace = mainTrace ∧
    ("router", Value.imported "./router") ∈ (runMain fw cfg).1.bindings := by
  rw [run_of_succeeds fw cfg h]
  refine ⟨rfl, ?_⟩
  show ("router", Value.imported "./router") ∈ mainBindings.take (bindCount 7)
  decide

/-- Witness for C1 at the all-succeeding framework and default config. -/
theorem mainBootstrapEffects_witness :
    (runMain okFramework cfg0).1.trace = mainTrace ∧
    ("router", Value.imported "./router") ∈ (runMain okFramework cfg0).1.bindings :=
  mainBootstrapEffects okFramework cfg0
    ⟨fun _ => rfl, fun _ => ⟨(), rfl⟩, fun _ _ => ⟨(), rfl⟩⟩

/-- C2: the mount operation is invoked with exactly the CSS selector
string `#app` as its argument list, and with no other argument: every
mount effect of every execution carries the one-element argument list
`["#app"]`, and the single mount statement of the module carries it
too. -/
theorem mountSelectorOnly {I : Type} (fw : Framework I) (cfg : VueConfig) :
    (∀ args, Effect.effMount args ∈ (runMain fw cfg).1.trace → args = ["#app"]) ∧
    (∀ o args, Stmt.newVueMount o args ∈ mainModule → args = ["#app"]) := by
  constructor
  · intro args hmem
    obtain ⟨k, hk, hst, _⟩ := runMain_cases fw cfg
    rw [hst, stateAt_trace] at hmem
    have hmem2 : Effect.effMount args ∈ mainTrace := List.take_subset _ _ hmem
    simp [mainTrace] at hmem2
    exact hmem2
  · intro o args hmem
    simp [mainModule] at hmem
    exact hmem.2

/-- Witness for C2: the mount effect of a successful run and the mount
statement of the module both carry `["#app"]`. -/
theorem mountSelectorOnly_witness :
    (["#app"] : List String) = ["#app"] ∧ (["#app"] : List String) = ["#app"] :=
  ⟨(mountSelectorOnly okFramework cfg0).1 ["#app"] (by decide),
   (mountSelectorOnly okFramework cfg0).2 mainOptions ["#app"] (by simp [mainModule])⟩

/-- C3: the bootstrap module has no error handling of its own: whichever
framework call is the first to fail (an import, the constructor, or the
mount), the module's result is exactly that error, neither caught nor
transformed. -/
theorem mainErrorPropagation {I : Type} (fw : Framework I) (cfg : VueConfig)
    (e : JsError) :
    (fw.evalImport "vue" = .error e → (runMain fw cfg).2 = .error e) ∧
    (fw.evalImport "vue" = .ok () → fw.evalImport "./App.vue" = .error e →
      (runMain fw cfg).2 = .error e) ∧
    (fw.evalImport "vue" = .ok () → fw.evalImport "./App.vue" = .ok () →
      fw.evalImport "./registerServiceWorker" = .error e →
      (runMain fw cfg).2 = .error e) ∧
    (fw.evalImport "vue" = .ok () → fw.evalImport "./App.vue" = .ok () →
      fw.evalImport "./registerServiceWorker" = .ok () →
      fw.evalImport "./router" = .error e →
      (runMain fw cfg).2 = .error e) ∧
    (fw.evalImport "vue" = .ok () → fw.evalImport "./App.vue" = .ok () →
      fw.evalImport "./registerServiceWorker" = .ok () →
      fw.evalImport "./router" = .ok () →
      fw.construct mainOptions = .error e →
      (runMain fw cfg).2 = .error e) ∧
    (∀ inst, fw.evalImport "vue" = .ok () → fw.evalImport "./App.vue" = .ok () →
      fw.evalImport "./registerServiceWorker" = .ok () →
      fw.evalImport "./router" = .ok () →
      fw.construct mainOptions = .ok inst →
      fw.mount inst ["#app"] = .error e →
      (runMain fw cfg).2 = .error e) := by
  refine ⟨fun h1 => ?_, fun h1 h2 => ?_, fun h1 h2 h3 => ?_, fun h1 h2 h3 h4 => ?_,
    fun h1 h2 h3 h4 h5 => ?_, fun inst h1 h2 h3 h4 h5 h6 => ?_⟩
  · rw [run_err_vue fw cfg e h1]
  · rw [run_err_app fw cfg e h1 h2]
  · rw [run_err_sw fw cfg e h1 h2 h3]
  · rw [run_err_router fw cfg e h1 h2 h3 h4]
  · rw [run_err_construct fw cfg e h1 h2 h3 h4 h5]
  · rw [run_err_mount fw cfg e inst h1 h2 h3 h4 h5 h6]

/-- Witness for C3: on a framework whose mount call throws, the module's
result is exactly that error. -/
theorem mainErrorPropagation_witness :
    (runMain mountFailFw cfg0).2 = Except.error "no mount target" :=
  (mainErrorPropagation mountFailFw cfg0 "no mount target").2.2.2.2.2
    () rfl rfl rfl rfl rfl rfl

/-- C4: the only global state the module mutates is the production
diagnostics flag, which it sets to `false`: in every execution the final
configuration is either the initial one (a run failing before the
assignment) or the initial one with only `productionTip` set to `false`;
the fields `silent`, `devtools` and `performance` are always unchanged,
and every completed run leaves exactly the initial configuration with
`productionTip := false`. -/
theorem productionTipOnlyConfigChange {I : Type} (fw : Framework I)
    (cfg : VueConfig) :
    (runMain fw cfg).1.config.silent = cfg.silent ∧
    (runMain fw cfg).1.config.devtools = cfg.devtools ∧
    (runMain fw cfg).1.config.performance = cfg.performance ∧
    ((runMain fw cfg).1.config = cfg ∨
      (runMain fw cfg).1.config = { cfg with productionTip := false }) ∧
    ((runMain fw cfg).2 = Except.ok () →
      (runMain fw cfg).1.config = { cfg with productionTip := false }) := by
  obtain ⟨k, hk, hst, hok⟩ := runMain_cases fw cfg
  rw [hst, stateAt_config]
  by_cases h5k : 5 ≤ k
  · rw [if_pos h5k]
    exact ⟨rfl, rfl, rfl, Or.inr rfl, fun _ => rfl⟩
  · rw [if_neg h5k]
    exact ⟨rfl, rfl, rfl, Or.inl rfl,
      fun hsucc => absurd (hok hsucc) (by omega)⟩

/-- Witness for C4: a completed run leaves the default configuration with
only the production tip disabled. -/
theorem productionTipOnlyConfigChange_witness :
    (runMain okFramework cfg0).1.config = { cfg0 with productionTip := false } :=
  (productionTipOnlyConfigChange okFramework cfg0).2.2.2.2 rfl

/-- C5: the module body is a single sequential composition executed in
this order: every import effect comes before the configuration
assignment, which comes before the instance construction, which comes
before the mount. -/
theorem mainSequentialOrder {I : Type} (fw : Framework I) (cfg : VueConfig)
    (h : Succeeds fw) (i j : Nat) (ei ej : Effect)
    (hi : ((runMain fw cfg).1.trace)[i]? = some ei)
    (hj : ((runMain fw cfg).1.trace)[j]? = some ej) :
    (isImportEff ei → isSetConfigEff ej → i < j) ∧
    (isImportEff ei → isConstructEff ej → i < j) ∧
    (isImportEff ei → isMountEff ej → i < j) ∧
    (isSetConfigEff ei → isConstructEff ej → i < j) ∧
    (isSetConfigEff ei → isMountEff ej → i < j) ∧
    (isConstructEff ei → isMountEff ej → i < j) := by
  rw [run_of_succeeds fw cfg h] at hi hj
  exact mainTrace_order i j ei ej hi hj

/-- Witness for C5: in a successful run, the first import effect precedes
the configuration assignment. -/
theorem mainSequentialOrder_witness :
    ((runMain okFramework cfg0).1.trace)[0]? = some (.effImport "vue") ∧
    ((runMain okFramework cfg0).1.trace)[4]? =
      some (.effSetConfig .productionTip false) ∧
    0 < 4 :=
  ⟨rfl, rfl,
    (mainSequentialOrder okFramework cfg0 succeeds_okFramework 0 4
      (.effImport "vue") (.effSetConfig .productionTip false) rfl rfl).1 rfl rfl⟩

/-- C6 counterexample: the bootstrap file is not 12 lines long. -/
theorem mainTsNotTwelveLines : ¬ mainTsLines.length = 12 := by decide

/-- C6 (amended): the supplied source consists of a single application
bootstrap file that is exactly 11 lines long. -/
theorem mainTsElevenLines : mainTsLines.length = 11 := by decide

/-- C7: if every framework call succeeds, the module completes without
throwing and the application is mounted on `#app`. -/
theorem mainMountsWithoutThrowing {I : Type} (fw : Framework I)
    (cfg : VueConfig) (h : Succeeds fw) :
    (runMain fw cfg).2 = Except.ok () ∧
    Effect.effMount ["#app"] ∈ (runMain fw cfg).1.trace := by
  rw [run_of_succeeds fw cfg h]
  refine ⟨rfl, ?_⟩
  show Effect.effMount ["#app"] ∈ mainTrace.take 7
  decide

/-- Witness for C7 at the all-succeeding framework and default config. -/
theorem mainMountsWithoutThrowing_witness :
    (runMain okFramework cfg0).2 = Except.ok () ∧
    Effect.effMount ["#app"] ∈ (runMain okFramework cfg0).1.trace :=
  mainMountsWithoutThrowing okFramework cfg0 succeeds_okFramework

/-- C8: the render option is the pure function mapping a create-element
function `x` to `x App`: it applies its argument exactly once, to the
root component `App` and nothing else (the instrumented create-element
records exactly the one call on `App`), and it is deterministic:
extensionally equal arguments give equal results. -/
theorem renderPureSingleApp :
    mainOptions.render = @render VNode ∧
    (∀ (V : Type) (x : Component → V), render x = x Component.App) ∧
    (∀ (V : Type) (g : Component → V),
      render (fun c => (g c, [c])) = (g Component.App, [Component.App])) ∧
    (∀ (V : Type) (x y : Component → V), (∀ c, x c = y c) → render x = render y) :=
  ⟨rfl, fun _ _ => rfl, fun _ _ => rfl, fun _ _ _ h => h Component.App⟩

/-- Witness for C8 at concrete create-element functions. -/
theorem renderPureSingleApp_witness :
    render (fun _ => (0 : Nat)) = 0 ∧
    render (fun c => ((37 : Nat), [c])) = (37, [Component.App]) ∧
    render (fun _ => (5 : Nat)) = render (fun _ => (5 : Nat)) :=
  ⟨renderPureSingleApp.2.1 Nat (fun _ => 0),
   renderPureSingleApp.2.2.1 Nat (fun _ => 37),
   renderPureSingleApp.2.2.2 Nat (fun _ => 5) (fun _ => 5) (fun _ => rfl)⟩

/-- C9: the module exports nothing and discards the constructed
application instance: in every execution the export list stays empty, no
module binding ever refers to an application instance, and a completed
run leaves exactly the three import bindings. -/
theorem moduleExportsNothing {I : Type} (fw : Framework I) (cfg : VueConfig) :
    (runMain fw cfg).1.exports = [] ∧
    (∀ n v, (n, v) ∈ (runMain fw cfg).1.bindings → v ≠ Value.appInst) ∧
    ((runMain fw cfg).2 = Except.ok () →
      (runMain fw cfg).1.bindings = mainBindings) := by
  obtain ⟨k, hk, hst, hok⟩ := runMain_cases fw cfg
  rw [hst]
  refine ⟨rfl, ?_, ?_⟩
  · intro n v hmem heq
    subst heq
    rw [stateAt_bindings] at hmem
    have hmem2 : (n, Value.appInst) ∈ mainBindings := List.take_subset _ _ hmem
    simp [mainBindings] at hmem2
  · intro hsucc
    have hk7 := hok hsucc
    subst hk7
    rfl

/-- Witness for C9 at the all-succeeding framework and default config. -/
theorem moduleExportsNothing_witness :
    (runMain okFramework cfg0).1.exports = [] ∧
    Value.imported "vue" ≠ Value.appInst ∧
    (runMain okFramework cfg0).1.bindings = mainBindings :=
  ⟨(moduleExportsNothing okFramework cfg0).1,
   (moduleExportsNothing okFramework cfg0).2.1 "Vue" (Value.imported "vue")
     (by decide),
   (moduleExportsNothing okFramework cfg0).2.2 rfl⟩

/-- C10: in every execution, also a failing one, the service-worker
registration import has been evaluated strictly before the
production-diagnostics assignment, before the instance construction, and
before the mount: any such effect in the trace is preceded by the
`./registerServiceWorker` import effect. -/
theorem swBeforeMountAlways {I : Type} (fw : Framework I) (cfg : VueConfig)
    (j : Nat) (e : Effect)
    (hj : ((runMain fw cfg).1.trace)[j]? = some e)
    (he : isSetConfigEff e ∨ isConstructEff e ∨ isMountEff e) :
    ∃ i, i < j ∧
      ((runMain fw cfg).1.trace)[i]? =
        some (Effect.effImport "./registerServiceWorker") := by
  obtain ⟨k, hk, hst, _⟩ := runMain_cases fw cfg
  rw [hst, stateAt_trace] at hj ⊢
  rw [List.getElem?_take] at hj
  by_cases hjk : j < k
  · rw [if_pos hjk] at hj
    have h4 : 4 ≤ j := mainTrace_late j e hj he
    refine ⟨2, by omega, ?_⟩
    rw [List.getElem?_take, if_pos (by omega)]
    rfl
  · rw [if_neg hjk] at hj
    cases hj

/-- Witness for C10: the mount effect of a successful run is preceded by
the service-worker registration import. -/
theorem swBeforeMountAlways_witness :
    ∃ i, i < 6 ∧
      ((runMain okFramework cfg0).1.trace)[i]? =
        some (Effect.effImport "./registerServiceWorker") :=
  swBeforeMountAlways okFramework cfg0 6 (Effect.effMount ["#app"]) rfl
    (Or.inr (Or.inr rfl))

end PyJukebox
